import Mathlib

/-!
# Verification of the anonymization overlay (pdf.js fork)

Shallow embedding of `src/display/anonymization_layer.js` and of the
`AnonymizationLayerBuilder` / `DefaultAnonymizationLayerFactory` module.

Coordinates are rationals (the JS code performs only field operations and
absolute values on them). Canvas 2D paint calls are recorded as an ordered
log of paint operations. JavaScript exceptions (`TypeError` from calling a
non-function, `ReferenceError` from an unbound identifier) are modelled
with `Except`.

The host viewer's viewport object (`convertToViewportPoint`,
`convertToPdfPoint`, `clone`, `width`, `height`) is not part of the two
source files; it is modelled from the spec as an invertible page→canvas
transform built from a scale, a quarter-turn rotation, an optional
vertical flip and an offset.
-/

/-- A point, used both for page (PDF) space and canvas space. -/
structure Pt where
  x : ℚ
  y : ℚ
  deriving DecidableEq, Repr

/-- A page-space rectangle `{x0, y0, x1, y1}` with unordered corners,
as produced by the mouse gesture and stored in the shared list. -/
structure Rectangle where
  x0 : ℚ
  y0 : ℚ
  x1 : ℚ
  y1 : ℚ
  deriving DecidableEq, Repr

/-- A viewer rotation: a quarter-turn multiple. -/
inductive Rotation where
  | deg0
  | deg90
  | deg180
  | deg270
  deriving DecidableEq, Repr

/-- Modelled from the spec: the host viewer's `PageViewport` collaborator
(not part of the two source files). Per the spec it is "the transform
(scale, rotation, height) currently mapping page space to canvas space";
rotation is a quarter-turn multiple and `dontFlip` controls the vertical
flip between bottom-up page space and top-down canvas space. -/
structure Viewport where
  scale : ℚ
  rotation : Rotation
  dontFlip : Bool
  offsetX : ℚ
  offsetY : ℚ
  width : ℚ
  height : ℚ
  deriving DecidableEq, Repr

/-- The linear part `(a, b, c, d)` of the viewport transform: a signed
quarter-turn rotation matrix, with `dontFlip` negating the second row. -/
def Viewport.coeffs (vp : Viewport) : ℚ × ℚ × ℚ × ℚ :=
  match vp.rotation, vp.dontFlip with
  | .deg0, false => (1, 0, 0, -1)
  | .deg90, false => (0, 1, 1, 0)
  | .deg180, false => (-1, 0, 0, 1)
  | .deg270, false => (0, -1, -1, 0)
  | .deg0, true => (1, 0, 0, 1)
  | .deg90, true => (0, 1, -1, 0)
  | .deg180, true => (-1, 0, 0, -1)
  | .deg270, true => (0, -1, 1, 0)

/-- Modelled from the spec: `viewport.convertToViewportPoint(x, y)` maps a
page-space point to canvas space through the scaled rotation plus offset. -/
def Viewport.convertToViewportPoint (vp : Viewport) (x y : ℚ) : ℚ × ℚ :=
  let (a, b, c, d) := vp.coeffs
  (vp.scale * (a * x + b * y) + vp.offsetX,
   vp.scale * (c * x + d * y) + vp.offsetY)

/-- Modelled from the spec: `viewport.convertToPdfPoint(x, y)`, the inverse
map from canvas space back to page space (the linear part has determinant
`±1` before scaling). -/
def Viewport.convertToPdfPoint (vp : Viewport) (x y : ℚ) : ℚ × ℚ :=
  let (a, b, c, d) := vp.coeffs
  let det := a * d - b * c
  let u := (x - vp.offsetX) / vp.scale
  let v := (y - vp.offsetY) / vp.scale
  ((d * u - b * v) / det, (a * v - c * u) / det)

/-- A canvas-space rectangle `[x, y, width, height]` as passed to
`ctx.fillRect` / `ctx.clearRect`. -/
structure ViewportRect where
  x : ℚ
  y : ℚ
  w : ℚ
  h : ℚ
  deriving DecidableEq, Repr

/-- One recorded canvas 2D paint call. -/
inductive PaintOp where
  | fill (r : ViewportRect)
  | clear (r : ViewportRect)
  deriving DecidableEq, Repr

/-- The duck-typed element returned by `AnonymizationElementFactory.create`:
`render()` fills `vrect` black, `clear()` clears `vrect`. -/
structure Element where
  isRenderable : Bool
  vrect : ViewportRect
  deriving DecidableEq, Repr

/-- The JavaScript exceptions the embedded code can raise. -/
inductive JsError where
  | typeError
  | referenceError
  deriving DecidableEq, Repr

/-- `AnonymizationElementFactory.create(parameters)`: converts the two
page-space corners through the viewport transform and builds the
canvas-space rectangle
`[vX.0, |vX.1 - h|, vY.0 - vX.0, |vY.1 - h| - |vX.1 - h|]`. -/
def AnonymizationElementFactory.create (vp : Viewport) (r : Rectangle) :
    Element :=
  let vX := vp.convertToViewportPoint r.x0 r.y0
  let vY := vp.convertToViewportPoint r.x1 r.y1
  { isRenderable := true
    vrect :=
      { x := vX.1
        y := |vX.2 - vp.height|
        w := vY.1 - vX.1
        h := |vY.2 - vp.height| - |vX.2 - vp.height| } }

/-- `AnonymizationLayer.renderRectangles(parameters, rectangleFactory)`:
iterates the rectangle list, `continue`s on null/undefined entries, and for
each remaining entry calls the factory and paints the element when
`isRenderable`. The factory argument is an `Option` because
`AnonymizationLayer.update` calls this function without one: invoking the
missing (`undefined`) factory raises a `TypeError`. -/
def AnonymizationLayer.renderRectangles
    (rectangles : List (Option Rectangle))
    (rectangleFactory : Option (Rectangle → Element)) :
    Except JsError (List PaintOp) :=
  match rectangles with
  | [] => .ok []
  | none :: rest => AnonymizationLayer.renderRectangles rest rectangleFactory
  | some r :: rest =>
    match rectangleFactory with
    | none => .error .typeError
    | some f =>
      let element := f r
      let ops := if element.isRenderable then [PaintOp.fill element.vrect] else []
      (AnonymizationLayer.renderRectangles rest (some f)).map (ops ++ ·)

/-- The `rectangleFactory` closure built inside `AnonymizationLayer.render`:
it forwards the rectangle, canvas and viewport to the element factory. -/
def AnonymizationLayer.rectangleFactory (vp : Viewport) :
    Rectangle → Element :=
  fun r => AnonymizationElementFactory.create vp r

/-- The paint operations a full repaint (`rerender()`) of the list issues:
one black fill per non-null rectangle, in list order. -/
def rerenderOps (vp : Viewport) (rectangles : List (Option Rectangle)) :
    List PaintOp :=
  (rectangles.filterMap id).map
    (fun r => PaintOp.fill (AnonymizationElementFactory.create vp r).vrect)

/-- With the real factory in hand, `renderRectangles` never throws and
issues exactly `rerenderOps`. -/
theorem renderRectangles_factory_eq (vp : Viewport)
    (rectangles : List (Option Rectangle)) :
    AnonymizationLayer.renderRectangles rectangles
      (some (AnonymizationLayer.rectangleFactory vp)) =
      .ok (rerenderOps vp rectangles) := by
  induction rectangles with
  | nil => rfl
  | cons hd tl ih =>
    cases hd with
    | none =>
      simp [AnonymizationLayer.renderRectangles, rerenderOps] at ih ⊢
      exact ih
    | some r =>
      simp [AnonymizationLayer.renderRectangles, rerenderOps,
        AnonymizationLayer.rectangleFactory, AnonymizationElementFactory.create,
        Except.map, ih]

/-! ## The interaction state machine (`registerCanvasEvents`)

The three mouse handlers close over `painting`, `createRectangle` and the
preview `rectangle`. `createRectangle` remembers the `mousedown` event, so
it is modelled by the anchor point it captured (`none` = still the initial
`null`). The shared rectangle list is also part of the closure state. -/

/-- The mutable closure state of `registerCanvasEvents`. -/
structure GestureState where
  painting : Bool
  anchor : Option Pt
  preview : Option Element
  rectangles : List (Option Rectangle)
  deriving DecidableEq, Repr

/-- The state on entry to `registerCanvasEvents`: `painting = false`,
`createRectangle = null`, preview `rectangle = null`. -/
def initGesture (rectangles : List (Option Rectangle)) : GestureState :=
  { painting := false, anchor := none, preview := none
    rectangles := rectangles }

/-- A mouse event on the canvas, by its `(offsetX, offsetY)` point. -/
inductive MouseEvent where
  | mousedown (p : Pt)
  | mouseup (p : Pt)
  | mousemove (p : Pt)
  deriving DecidableEq, Repr

/-- The body of the `createRectangle` closure: both the captured
`mousedown` point and the current event point go through
`convertToPdfPoint(offsetX, viewport.height - offsetY)`. -/
def createRectangle (vp : Viewport) (anchor current : Pt) : Rectangle :=
  let point0 := vp.convertToPdfPoint anchor.x (vp.height - anchor.y)
  let point1 := vp.convertToPdfPoint current.x (vp.height - current.y)
  { x0 := point0.1, y0 := point0.2, x1 := point1.1, y1 := point1.2 }

/-- One step of the gesture machine: the handler the event dispatches to,
returning the new closure state and the paint calls it issued. Calling the
still-`null` `createRectangle` (never reachable from `initGesture`) is the
`TypeError` case. -/
def handleEvent (vp : Viewport) (s : GestureState) :
    MouseEvent → Except JsError (GestureState × List PaintOp)
  | .mousedown p =>
    if s.painting then .ok (s, [])
    else .ok ({ s with anchor := some p, painting := true }, [])
  | .mouseup p =>
    if s.painting then
      match s.anchor with
      | none => .error .typeError
      | some a =>
        let r := createRectangle vp a p
        let rects := s.rectangles ++ [some r]
        .ok ({ s with rectangles := rects, painting := false },
          rerenderOps vp rects)
    else .ok (s, [])
  | .mousemove p =>
    let (s1, ops1) :=
      match s.preview with
      | some el =>
        ({ s with preview := none },
          PaintOp.clear el.vrect :: rerenderOps vp s.rectangles)
      | none => (s, ([] : List PaintOp))
    if s1.painting then
      match s1.anchor with
      | none => .error .typeError
      | some a =>
        let el := AnonymizationLayer.rectangleFactory vp (createRectangle vp a p)
        .ok ({ s1 with preview := some el }, ops1 ++ [PaintOp.fill el.vrect])
    else .ok (s1, ops1)

/-- Run a sequence of mouse events from a state, accumulating paint calls. -/
def runEvents (vp : Viewport) (s : GestureState) :
    List MouseEvent → Except JsError (GestureState × List PaintOp)
  | [] => .ok (s, [])
  | e :: rest =>
    match handleEvent vp s e with
    | .error err => .error err
    | .ok (s1, ops1) =>
      match runEvents vp s1 rest with
      | .error err => .error err
      | .ok (s2, ops2) => .ok (s2, ops1 ++ ops2)

/-! ## `AnonymizationLayer.update` and the canvas state

The canvas is modelled by its `hidden` attribute and the ordered log of
paint calls made on its 2D context. -/

/-- The observable state of the overlay canvas. -/
structure CanvasState where
  hidden : Bool
  ops : List PaintOp
  deriving DecidableEq, Repr

/-- `AnonymizationLayer.update(parameters)`: calls
`renderRectangles(parameters)` — with NO factory argument — and then
`parameters.canvas.removeAttribute('hidden')`. The result pairs the canvas
state as left by the call with the exception, if one escaped: when
`renderRectangles` throws, the canvas is unchanged and the attribute line
is never reached. -/
def AnonymizationLayer.update (rectangles : List (Option Rectangle))
    (canvas : CanvasState) : CanvasState × Option JsError :=
  match AnonymizationLayer.renderRectangles rectangles none with
  | .error e => (canvas, some e)
  | .ok newOps => ({ hidden := false, ops := canvas.ops ++ newOps }, none)

/-! ## `AnonymizationLayerBuilder` (the unnamed module)

The builder owns at most one canvas element per page. DOM mutations and
collaborator calls made when the asynchronous `getAnnotations` fetch
resolves are recorded as an ordered effect log. -/

/-- The builder's overlay canvas element: its size attributes and the
`hidden` attribute (style strings are not modelled; they only mirror the
page container's). -/
structure BCanvas where
  width : ℚ
  height : ℚ
  hidden : Bool
  deriving DecidableEq, Repr

/-- The mutable fields of `AnonymizationLayerBuilder` (`pageDiv`, `pdfPage`
and `l10n` are opaque collaborators and carry no state the claims use). -/
structure Builder where
  canvas : Option BCanvas
  cancelled : Bool
  rectangles : List (Option Rectangle)
  deriving DecidableEq, Repr

/-- The builder as the constructor leaves it. -/
def Builder.make (rectangles : List (Option Rectangle)) : Builder :=
  { canvas := none, cancelled := false, rectangles := rectangles }

/-- An observable side effect of the fetch-resolution callback in
`AnonymizationLayerBuilder.render`. -/
inductive BEffect where
  | createCanvas
  | updateCanvasSize
  | appendToPage
  | layerRender
  | layerUpdate
  | translate
  deriving DecidableEq, Repr

/-- `AnonymizationLayerBuilder.updateCanvas(viewport)`: sizes the canvas to
the viewport. -/
def Builder.updateCanvas (vp : Viewport) (c : BCanvas) : BCanvas :=
  { c with width := vp.width, height := vp.height }

/-- The continuation `AnonymizationLayerBuilder.render` runs when the
`getAnnotations` fetch resolves: bail out if cancelled; otherwise either
resize the existing canvas and call `AnonymizationLayer.update` (which
throws a `TypeError` on any non-null rectangle, before removing the
`hidden` attribute), or create a canvas, size it, append it to the page,
call `AnonymizationLayer.render` and request `l10n.translate`. Returns the
new builder state, the effect log, and the exception that escaped, if
any. -/
def Builder.renderResolve (vp : Viewport) (b : Builder) :
    Builder × List BEffect × Option JsError :=
  if b.cancelled then (b, [], none)
  else
    match b.canvas with
    | some c =>
      let c1 := Builder.updateCanvas vp c
      match AnonymizationLayer.renderRectangles b.rectangles none with
      | .error e =>
        ({ b with canvas := some c1 },
          [.updateCanvasSize, .layerUpdate], some e)
      | .ok _ =>
        ({ b with canvas := some { c1 with hidden := false } },
          [.updateCanvasSize, .layerUpdate], none)
    | none =>
      let c := Builder.updateCanvas vp { width := 0, height := 0, hidden := false }
      ({ b with canvas := some c },
        [.createCanvas, .updateCanvasSize, .appendToPage, .layerRender,
          .translate], none)

/-- `AnonymizationLayerBuilder.cancel()`. -/
def Builder.cancel (b : Builder) : Builder :=
  { b with cancelled := true }

/-- `AnonymizationLayerBuilder.hide()`: returns early when no canvas
exists, otherwise sets the `hidden` attribute; wrapped in `Except` to state
that neither path raises. -/
def Builder.hide (b : Builder) : Except JsError Builder :=
  match b.canvas with
  | none => .ok b
  | some c => .ok { b with canvas := some { c with hidden := true } }

/-- An operation on a builder: a fetch resolution (with the viewport the
matching `render` call received) or a `cancel()` call. -/
inductive BOp where
  | resolve (vp : Viewport)
  | cancel
  deriving Repr

/-- One builder operation, with its effect log. -/
def Builder.step (b : Builder) : BOp → Builder × List BEffect
  | .resolve vp =>
    let (b1, effs, _) := Builder.renderResolve vp b
    (b1, effs)
  | .cancel => (Builder.cancel b, [])

/-- Run a sequence of builder operations, accumulating effects. -/
def Builder.run (b : Builder) : List BOp → Builder × List BEffect
  | [] => (b, [])
  | op :: rest =>
    let (b1, effs1) := Builder.step b op
    let (b2, effs2) := Builder.run b1 rest
    (b2, effs1 ++ effs2)

/-- Number of `l10n.translate` requests in an effect log. -/
def countTranslate (effs : List BEffect) : Nat :=
  (effs.filter (· = BEffect.translate)).length

/-! ## `DefaultAnonymizationLayerFactory` and the module scope

`createAnonymizationBuilder` builds an object literal with the shorthand
properties `pageDiv, pdfPage, rectangles, imageResourcesPath, l10n`. A
shorthand property reads the identifier of that name from the enclosing
scopes; an identifier bound nowhere raises a `ReferenceError`. -/

/-- The identifiers in scope inside `createAnonymizationBuilder`: its four
parameters, and the module-level bindings of the file (the two imports and
the two class declarations). -/
def createBuilderScope : List String :=
  ["pageDiv", "pdfPage", "rectangles", "l10n",
   "AnonymizationLayer", "NullL10n",
   "AnonymizationLayerBuilder", "DefaultAnonymizationLayerFactory"]

/-- `DefaultAnonymizationLayerFactory.createAnonymizationBuilder(pageDiv,
pdfPage, rectangles, l10n)`: evaluating the object literal resolves each
shorthand property name in scope; `imageResourcesPath` is the first name
not bound in any enclosing scope, so the call raises a `ReferenceError`
before the `AnonymizationLayerBuilder` constructor runs. -/
def DefaultAnonymizationLayerFactory.createAnonymizationBuilder
    (rectangles : List (Option Rectangle)) : Except JsError Builder :=
  if "pageDiv" ∈ createBuilderScope ∧ "pdfPage" ∈ createBuilderScope ∧
      "rectangles" ∈ createBuilderScope ∧
      "imageResourcesPath" ∈ createBuilderScope ∧
      "l10n" ∈ createBuilderScope then
    .ok (Builder.make rectangles)
  else
    .error .referenceError

/-! ## Helper lemmas -/

/-- With the factory argument missing, `renderRectangles` can only succeed
by painting nothing (the list had no non-null entry). -/
theorem renderRectangles_none_ok (rectangles : List (Option Rectangle))
    (l : List PaintOp)
    (h : AnonymizationLayer.renderRectangles rectangles none = .ok l) :
    l = [] := by
  induction rectangles generalizing l with
  | nil =>
    simp [AnonymizationLayer.renderRectangles] at h
    exact h
  | cons hd tl ih =>
    cases hd with
    | none => exact ih l h
    | some r => simp [AnonymizationLayer.renderRectangles] at h

/-- When `u` and `v` lie on the same side of zero, the difference of their
absolute values has the absolute value of their difference. -/
theorem abs_abs_sub_abs_of_mul_nonneg (u v : ℚ) (h : 0 ≤ v * u) :
    abs (|u| - |v|) = |u - v| := by
  rcases mul_nonneg_iff.mp h with ⟨hv, hu⟩ | ⟨hv, hu⟩
  · rw [abs_of_nonneg hu, abs_of_nonneg hv]
  · rw [abs_of_nonpos hu, abs_of_nonpos hv]
    have e : -u - -v = v - u := by ring
    rw [e, abs_sub_comm]

/-- A sample rectangle used for concrete evaluations. -/
def rSample : Rectangle := { x0 := 0, y0 := 0, x1 := 1, y1 := 1 }

/-- A sample hidden canvas used for concrete evaluations. -/
def canvasHidden : CanvasState := { hidden := true, ops := [] }

/-! ## Claims -/

/-- C1: the claim says `AnonymizationLayer.update` repaints every rectangle
in the list and then removes the canvas's `hidden` attribute. The code
calls `renderRectangles(parameters)` without the required factory argument,
so with any non-null rectangle in the list the loop invokes `undefined` as
a function and throws a `TypeError` before painting anything; the
`removeAttribute('hidden')` line is never reached. Evaluated here at a
one-rectangle list and a hidden canvas: the canvas keeps its `hidden`
attribute, no paint call occurs, and the `TypeError` escapes. -/
theorem c1_update_throws_before_reveal :
    AnonymizationLayer.update [some rSample] canvasHidden =
      (canvasHidden, some JsError.typeError) ∧
    (AnonymizationLayer.update [some rSample] canvasHidden).1.hidden = true ∧
    (AnonymizationLayer.update [some rSample] canvasHidden).1.ops = [] := by
  refine ⟨rfl, rfl, rfl⟩

/-- C8: calling `AnonymizationLayer.update` twice in a row with the same
rectangle list leaves the canvas (paint log and `hidden` attribute) in the
same state as calling it once. (With a non-null entry present each call
throws before touching the canvas; with none, the repaint paints nothing
and removing the absent `hidden` attribute twice is the same as once.) -/
theorem c8_update_idempotent (rectangles : List (Option Rectangle))
    (canvas : CanvasState) :
    (AnonymizationLayer.update rectangles
        (AnonymizationLayer.update rectangles canvas).1).1 =
      (AnonymizationLayer.update rectangles canvas).1 := by
  unfold AnonymizationLayer.update
  cases h : AnonymizationLayer.renderRectangles rectangles none with
  | error e => simp
  | ok l =>
    have hl := renderRectangles_none_ok rectangles l h
    subst hl
    simp

/-- C5: `renderRectangles`, called with the factory that
`AnonymizationLayer.render` builds, skips exactly the null entries and
issues one fill per remaining rectangle, in list order (`rerenderOps` is
the in-order map over the non-null entries); a list with N non-null
rectangles yields exactly N paint operations and the empty list yields
zero. -/
theorem c5_renderRectangles_in_order (vp : Viewport)
    (rectangles : List (Option Rectangle)) :
    AnonymizationLayer.renderRectangles rectangles
        (some (AnonymizationLayer.rectangleFactory vp)) =
      .ok (rerenderOps vp rectangles) ∧
    (rerenderOps vp rectangles).length = (rectangles.filterMap id).length ∧
    rerenderOps vp [] = [] := by
  refine ⟨renderRectangles_factory_eq vp rectangles, ?_, rfl⟩
  simp [rerenderOps]

/-- A sample viewport: unit scale, no rotation, origin offset, 10×10. -/
def vpSample : Viewport :=
  { scale := 1, rotation := .deg0, dontFlip := false, offsetX := 0
    offsetY := 0, width := 10, height := 10 }

/-- C2: a `mouseup` that fires while the gesture state is painting (so the
anchor captured by `mousedown` is in place) appends exactly one rectangle —
built by `createRectangle` from the anchor and the release point, with no
minimum-size check — to the shared list, repaints all rectangles of the
extended list (the new one included), and resets `painting` to `false`. -/
theorem c2_mouseup_appends_and_repaints (vp : Viewport) (s : GestureState)
    (a p : Pt) (hpaint : s.painting = true) (hanchor : s.anchor = some a) :
    handleEvent vp s (.mouseup p) =
      .ok ({ s with
              rectangles := s.rectangles ++ [some (createRectangle vp a p)],
              painting := false },
        rerenderOps vp (s.rectangles ++ [some (createRectangle vp a p)])) := by
  simp [handleEvent, hpaint, hanchor]

/-- A painting-state gesture used to witness C2: the anchor sits at
`(3, 4)` and one rectangle is already stored. -/
def gestureC2 : GestureState :=
  { painting := true, anchor := some { x := 3, y := 4 }, preview := none
    rectangles := [some rSample] }

/-- Witness for C2 at a degenerate drag: releasing at the anchor point
itself still appends the (zero-width, zero-height) rectangle and repaints
both rectangles. -/
theorem c2_witness :
    gestureC2.painting = true ∧
    gestureC2.anchor = some { x := 3, y := 4 } ∧
    handleEvent vpSample gestureC2 (.mouseup { x := 3, y := 4 }) =
      .ok ({ gestureC2 with
              rectangles := gestureC2.rectangles ++
                [some (createRectangle vpSample { x := 3, y := 4 }
                  { x := 3, y := 4 })],
              painting := false },
        rerenderOps vpSample (gestureC2.rectangles ++
          [some (createRectangle vpSample { x := 3, y := 4 }
            { x := 3, y := 4 })])) :=
  ⟨rfl, rfl,
    c2_mouseup_appends_and_repaints vpSample gestureC2
      { x := 3, y := 4 } { x := 3, y := 4 } rfl rfl⟩

/-- C3, counterexample: the claim says a `mousemove` while not painting
performs no canvas mutation, for every sequence of prior events. After the
gesture `mousedown (0,0)`, `mousemove (1,1)`, `mouseup (2,2)` the state is
no longer painting, yet the preview painted by the `mousemove` was never
cleared by the `mouseup`; the next `mousemove` therefore clears it and
triggers a full repaint — a non-empty list of canvas mutations
(`isEmpty = false`). -/
theorem c3_counterexample :
    ((runEvents vpSample (initGesture [])
        [.mousedown { x := 0, y := 0 }, .mousemove { x := 1, y := 1 },
          .mouseup { x := 2, y := 2 }]).map
      (fun st =>
        (st.1.painting,
          (handleEvent vpSample st.1 (.mousemove { x := 3, y := 3 })).map
            (fun res => res.2.isEmpty)))) =
      .ok (false, .ok false) := by
  rfl

/-- C3, amended: while painting, every `mousemove` paints a new preview
rectangle spanning the anchor and the current pointer — clearing the old
preview and repainting all stored rectangles first, when an old preview
exists; while not painting, a `mousemove` is a no-op exactly when no
leftover preview from the previous gesture exists, and otherwise clears
that leftover preview and repaints all stored rectangles. -/
theorem c3_amended_mousemove (vp : Viewport) (s1 s2 s3 s4 : GestureState)
    (a1 a4 p : Pt) (el3 el4 : Element)
    (h1paint : s1.painting = true) (h1anchor : s1.anchor = some a1)
    (h1prev : s1.preview = none)
    (h2paint : s2.painting = false) (h2prev : s2.preview = none)
    (h3paint : s3.painting = false) (h3prev : s3.preview = some el3)
    (h4paint : s4.painting = true) (h4anchor : s4.anchor = some a4)
    (h4prev : s4.preview = some el4) :
    handleEvent vp s1 (.mousemove p) =
      .ok ({ s1 with preview := some (AnonymizationLayer.rectangleFactory vp
              (createRectangle vp a1 p)) },
        [PaintOp.fill (AnonymizationLayer.rectangleFactory vp
          (createRectangle vp a1 p)).vrect]) ∧
    handleEvent vp s2 (.mousemove p) = .ok (s2, []) ∧
    handleEvent vp s3 (.mousemove p) =
      .ok ({ s3 with preview := none },
        PaintOp.clear el3.vrect :: rerenderOps vp s3.rectangles) ∧
    handleEvent vp s4 (.mousemove p) =
      .ok ({ s4 with preview := some (AnonymizationLayer.rectangleFactory vp
              (createRectangle vp a4 p)) },
        (PaintOp.clear el4.vrect :: rerenderOps vp s4.rectangles) ++
          [PaintOp.fill (AnonymizationLayer.rectangleFactory vp
            (createRectangle vp a4 p)).vrect]) := by
  refine ⟨?_, ?_, ?_, ?_⟩
  · simp [handleEvent, h1paint, h1anchor, h1prev]
  · simp [handleEvent, h2paint, h2prev]
  · simp [handleEvent, h3paint, h3prev]
  · simp [handleEvent, h4paint, h4anchor, h4prev]

/-- A preview element over the sample viewport, for witnessing C3. -/
def elSample : Element :=
  AnonymizationLayer.rectangleFactory vpSample rSample

/-- Not-painting state with a leftover preview, for witnessing C3. -/
def gestureC3 : GestureState :=
  { painting := false, anchor := some { x := 0, y := 0 }
    preview := some elSample, rectangles := [some rSample] }

/-- Witness for the amended C3, instantiating all four cases at concrete
states (painting with and without a preview, idle with and without a
leftover preview). -/
theorem c3_amended_witness :
    ({ gestureC2 with preview := none } : GestureState).painting = true ∧
    gestureC3.painting = false ∧
    handleEvent vpSample { gestureC2 with preview := none }
        (.mousemove { x := 5, y := 5 }) =
      .ok ({ gestureC2 with preview := some (AnonymizationLayer.rectangleFactory
              vpSample (createRectangle vpSample { x := 3, y := 4 }
                { x := 5, y := 5 })) },
        [PaintOp.fill (AnonymizationLayer.rectangleFactory vpSample
          (createRectangle vpSample { x := 3, y := 4 } { x := 5, y := 5 })).vrect]) ∧
    handleEvent vpSample (initGesture []) (.mousemove { x := 5, y := 5 }) =
      .ok (initGesture [], []) ∧
    handleEvent vpSample gestureC3 (.mousemove { x := 5, y := 5 }) =
      .ok ({ gestureC3 with preview := none },
        PaintOp.clear elSample.vrect :: rerenderOps vpSample gestureC3.rectangles) ∧
    handleEvent vpSample { gestureC2 with preview := some elSample }
        (.mousemove { x := 5, y := 5 }) =
      .ok ({ gestureC2 with preview := some (AnonymizationLayer.rectangleFactory
              vpSample (createRectangle vpSample { x := 3, y := 4 }
                { x := 5, y := 5 })) },
        (PaintOp.clear elSample.vrect :: rerenderOps vpSample gestureC2.rectangles) ++
          [PaintOp.fill (AnonymizationLayer.rectangleFactory vpSample
            (createRectangle vpSample { x := 3, y := 4 } { x := 5, y := 5 })).vrect]) := by
  have h := c3_amended_mousemove vpSample
    { gestureC2 with preview := none } (initGesture []) gestureC3
    { gestureC2 with preview := some elSample }
    { x := 3, y := 4 } { x := 3, y := 4 } { x := 5, y := 5 } elSample elSample
    rfl rfl rfl rfl rfl rfl rfl rfl rfl rfl
  exact ⟨rfl, rfl, h.1, h.2.1, h.2.2.1, h.2.2.2⟩

/-- C4: when `cancel()` ran before the `getAnnotations` fetch resolved, the
resolution callback returns at the `_cancelled` check: the builder state is
unchanged (no canvas created, resized or mutated), no layer render or
update runs, no effect at all is logged, and no exception escapes. -/
theorem c4_cancelled_render_dropped (vp : Viewport) (b : Builder)
    (h : b.cancelled = true) :
    Builder.renderResolve vp b = (b, [], none) := by
  simp [Builder.renderResolve, h]

/-- A cancelled builder whose fetch has not yet resolved. -/
def builderCancelled : Builder :=
  { canvas := none, cancelled := true, rectangles := [some rSample] }

/-- Witness for C4: resolving the fetch on a concrete cancelled builder
changes nothing and logs nothing. -/
theorem c4_witness :
    builderCancelled.cancelled = true ∧
    Builder.renderResolve vpSample builderCancelled =
      (builderCancelled, [], none) :=
  ⟨rfl, c4_cancelled_render_dropped vpSample builderCancelled rfl⟩

/-- C9: `hide()` on a builder with no canvas returns without raising and
changes nothing; on a builder whose canvas exists it sets the canvas's
`hidden` attribute (and raises nothing either). -/
theorem c9_hide_safe (b1 b2 : Builder) (c : BCanvas)
    (h1 : b1.canvas = none) (h2 : b2.canvas = some c) :
    Builder.hide b1 = .ok b1 ∧
    Builder.hide b2 = .ok { b2 with canvas := some { c with hidden := true } } := by
  constructor
  · simp [Builder.hide, h1]
  · simp [Builder.hide, h2]

/-- A builder with a visible canvas. -/
def builderWithCanvas : Builder :=
  { canvas := some { width := 10, height := 10, hidden := false }
    cancelled := false, rectangles := [] }

/-- Witness for C9 at a canvas-less builder and at one with a canvas. -/
theorem c9_witness :
    (Builder.make []).canvas = none ∧
    builderWithCanvas.canvas = some { width := 10, height := 10, hidden := false } ∧
    Builder.hide (Builder.make []) = .ok (Builder.make []) ∧
    Builder.hide builderWithCanvas =
      .ok { builderWithCanvas with
              canvas := some { width := 10, height := 10, hidden := true } } := by
  have h := c9_hide_safe (Builder.make []) builderWithCanvas
    { width := 10, height := 10, hidden := false } rfl rfl
  exact ⟨rfl, rfl, h.1, h.2⟩

/-- C7: `DefaultAnonymizationLayerFactory.createAnonymizationBuilder`
evaluates an object literal whose shorthand property `imageResourcesPath`
names an identifier bound in no enclosing scope, so every call raises a
`ReferenceError` and never returns a builder. -/
theorem c7_createBuilder_referenceError (rectangles : List (Option Rectangle)) :
    DefaultAnonymizationLayerFactory.createAnonymizationBuilder rectangles =
      .error .referenceError := by
  have hmem : ¬ ("imageResourcesPath" ∈ createBuilderScope) := by decide
  unfold DefaultAnonymizationLayerFactory.createAnonymizationBuilder
  rw [if_neg]
  intro hco
  exact hmem hco.2.2.2.1

/-- One builder step changes the number of logged `translate` requests by
exactly the canvas's transition from absent to present. -/
theorem step_translate_count (b : Builder) (op : BOp) :
    countTranslate (Builder.step b op).2 +
        (if b.canvas.isSome then 1 else 0) =
      (if (Builder.step b op).1.canvas.isSome then 1 else 0) := by
  cases op with
  | cancel => simp [Builder.step, Builder.cancel, countTranslate]
  | resolve vp =>
    by_cases hc : b.cancelled
    · simp [Builder.step, Builder.renderResolve, hc, countTranslate]
    · cases hcv : b.canvas with
      | none =>
        simp [Builder.step, Builder.renderResolve, hc, hcv, countTranslate]
      | some c =>
        cases hr : AnonymizationLayer.renderRectangles b.rectangles none with
        | error e =>
          simp [Builder.step, Builder.renderResolve, hc, hcv, hr, countTranslate]
        | ok l =>
          simp [Builder.step, Builder.renderResolve, hc, hcv, hr, countTranslate]

/-- Over a whole run, the number of `translate` requests equals the
canvas's absent-to-present transition count. -/
theorem run_translate_count (ops : List BOp) (b : Builder) :
    countTranslate (Builder.run b ops).2 +
        (if b.canvas.isSome then 1 else 0) =
      (if (Builder.run b ops).1.canvas.isSome then 1 else 0) := by
  induction ops generalizing b with
  | nil => simp [Builder.run, countTranslate]
  | cons op rest ih =>
    have h1 := step_translate_count b op
    have h2 := ih (Builder.step b op).1
    have happ : countTranslate ((Builder.step b op).2 ++
          (Builder.run (Builder.step b op).1 rest).2) =
        countTranslate (Builder.step b op).2 +
          countTranslate (Builder.run (Builder.step b op).1 rest).2 := by
      simp [countTranslate, List.filter_append]
    simp only [Builder.run]
    omega

/-- C10: over any sequence of fetch resolutions and `cancel()` calls on a
fresh builder, `l10n.translate` is requested exactly once if the run ever
created the canvas and never otherwise; a single resolution requests it
exactly when it is the first successful one (not cancelled, no canvas
yet); and a resolution that finds an existing canvas takes the update path
(resize + layer update), requesting no translation. -/
theorem c10_translate_on_first_render (rectangles : List (Option Rectangle))
    (ops : List BOp) :
    countTranslate (Builder.run (Builder.make rectangles) ops).2 =
      (if (Builder.run (Builder.make rectangles) ops).1.canvas.isSome
        then 1 else 0) ∧
    (∀ (vp : Viewport) (b : Builder),
      countTranslate (Builder.renderResolve vp b).2.1 =
        (if b.cancelled = false ∧ b.canvas = none then 1 else 0)) ∧
    (∀ (vp : Viewport) (b : Builder) (c : BCanvas),
      (Builder.renderResolve vp
          { b with cancelled := false, canvas := some c }).2.1 =
        [BEffect.updateCanvasSize, BEffect.layerUpdate]) := by
  refine ⟨?_, ?_, ?_⟩
  · have h := run_translate_count ops (Builder.make rectangles)
    rw [show (Builder.make rectangles).canvas = none from rfl] at h
    simpa using h
  · intro vp b
    cases hc : b.cancelled with
    | true => simp [Builder.renderResolve, hc, countTranslate]
    | false =>
      cases hcv : b.canvas with
      | none =>
        simp [Builder.renderResolve, hc, hcv, countTranslate]
      | some c =>
        cases hr : AnonymizationLayer.renderRectangles b.rectangles none with
        | error e =>
          simp [Builder.renderResolve, hc, hcv, hr, countTranslate]
        | ok l =>
          simp [Builder.renderResolve, hc, hcv, hr, countTranslate]
  · intro vp b c
    cases hr : AnonymizationLayer.renderRectangles b.rectangles none with
    | error e => simp [Builder.renderResolve, hr]
    | ok l => simp [Builder.renderResolve, hr]

/-- Area computation for an axis-aligned linear part: when both converted
y-values lie on the same side of the height, the rectangle computed by the
factory has |width·height| equal to the page-space area times the square
of the scale. -/
theorem coeff_area_eq (s x0 y0 x1 y1 ox oy hg a b c d : ℚ)
    (hcoef : (b = 0 ∧ |a| = 1 ∧ c = 0 ∧ |d| = 1) ∨
      (a = 0 ∧ |b| = 1 ∧ d = 0 ∧ |c| = 1))
    (hside : 0 ≤ (s * (c * x0 + d * y0) + oy - hg) *
      (s * (c * x1 + d * y1) + oy - hg)) :
    |(s * (a * x1 + b * y1) + ox - (s * (a * x0 + b * y0) + ox)) *
        (|s * (c * x1 + d * y1) + oy - hg| -
          |s * (c * x0 + d * y0) + oy - hg|)| =
      s ^ 2 * (|x1 - x0| * |y1 - y0|) := by
  rw [abs_mul, abs_abs_sub_abs_of_mul_nonneg _ _ hside]
  have e1 : s * (a * x1 + b * y1) + ox - (s * (a * x0 + b * y0) + ox) =
      s * (a * (x1 - x0) + b * (y1 - y0)) := by ring
  have e2 : s * (c * x1 + d * y1) + oy - hg -
      (s * (c * x0 + d * y0) + oy - hg) =
      s * (c * (x1 - x0) + d * (y1 - y0)) := by ring
  rw [e1, e2]
  rcases hcoef with ⟨hb, ha, hc, hd⟩ | ⟨ha, hb, hd, hc⟩
  · subst hb; subst hc
    rw [show a * (x1 - x0) + 0 * (y1 - y0) = a * (x1 - x0) from by ring,
      show (0 : ℚ) * (x1 - x0) + d * (y1 - y0) = d * (y1 - y0) from by ring,
      abs_mul, abs_mul, abs_mul, abs_mul, ha, hd]
    have e3 : |s| * (1 * |x1 - x0|) * (|s| * (1 * |y1 - y0|)) =
        |s| * |s| * (|x1 - x0| * |y1 - y0|) := by ring
    rw [e3, abs_mul_abs_self, sq]
  · subst ha; subst hd
    rw [show (0 : ℚ) * (x1 - x0) + b * (y1 - y0) = b * (y1 - y0) from by ring,
      show c * (x1 - x0) + 0 * (y1 - y0) = c * (x1 - x0) from by ring,
      abs_mul, abs_mul, abs_mul, abs_mul, hb, hc]
    have e3 : |s| * (1 * |y1 - y0|) * (|s| * (1 * |x1 - x0|)) =
        |s| * |s| * (|x1 - x0| * |y1 - y0|) := by ring
    rw [e3, abs_mul_abs_self, sq]

/-- C6, counterexample: the straddling viewport and rectangle. With unit
scale, no rotation or offset and height 2, the page rectangle
`(0,-1)-(1,-3)` maps to converted y-values 1 and 3, one on each side of
the height; the computed height `|3-2| - |1-2|` collapses to 0 although
the scaled page area is 2, so the area equality of the claim fails. -/
def vpStraddle : Viewport :=
  { scale := 1, rotation := .deg0, dontFlip := false, offsetX := 0
    offsetY := 0, width := 10, height := 2 }

/-- The page-space rectangle whose corners straddle the height line under
`vpStraddle`. -/
def rStraddle : Rectangle := { x0 := 0, y0 := -1, x1 := 1, y1 := -3 }

/-- C6, counterexample: at `vpStraddle` and `rStraddle` the canvas-space
rectangle computed by `AnonymizationElementFactory.create` has
|width·height| = 0 while the page-space area times the squared scale
is 2 — the claimed equality is false for this viewport and rectangle. -/
theorem c6_counterexample :
    ¬ |(AnonymizationElementFactory.create vpStraddle rStraddle).vrect.w *
          (AnonymizationElementFactory.create vpStraddle rStraddle).vrect.h| =
        vpStraddle.scale ^ 2 *
          (|rStraddle.x1 - rStraddle.x0| * |rStraddle.y1 - rStraddle.y0|) := by
  norm_num [AnonymizationElementFactory.create, Viewport.convertToViewportPoint,
    Viewport.coeffs, vpStraddle, rStraddle]

/-- C6, amended: for every viewport and page-space rectangle whose two
corners convert to y-values on the same side of the viewport height (their
offsets from the height have non-negative product — in particular whenever
both corners land inside the canvas), the canvas-space rectangle computed
by `AnonymizationElementFactory.create` has |width·height| equal to the
page-space area |x1-x0|·|y1-y0| times the square of the scale factor; when
the corners straddle the height line the equality can fail. -/
theorem c6_amended_area (vp : Viewport) (r : Rectangle)
    (hside : 0 ≤ ((vp.convertToViewportPoint r.x0 r.y0).2 - vp.height) *
      ((vp.convertToViewportPoint r.x1 r.y1).2 - vp.height)) :
    |(AnonymizationElementFactory.create vp r).vrect.w *
        (AnonymizationElementFactory.create vp r).vrect.h| =
      vp.scale ^ 2 * (|r.x1 - r.x0| * |r.y1 - r.y0|) := by
  obtain ⟨s, rot, flip, ox, oy, wd, hg⟩ := vp
  obtain ⟨x0, y0, x1, y1⟩ := r
  cases rot <;> cases flip <;>
    (simp only [Viewport.convertToViewportPoint, Viewport.coeffs,
      AnonymizationElementFactory.create] at hside ⊢;
     exact coeff_area_eq s x0 y0 x1 y1 ox oy hg _ _ _ _ (by norm_num) hside)

/-- Witness for the amended C6: under `vpStraddle` the rectangle
`(0,0)-(1,1)` converts to y-values 0 and -1, both below the height 2, and
the computed |width·height| is exactly the scaled page area. -/
theorem c6_witness :
    0 ≤ ((vpStraddle.convertToViewportPoint rSample.x0 rSample.y0).2 -
          vpStraddle.height) *
        ((vpStraddle.convertToViewportPoint rSample.x1 rSample.y1).2 -
          vpStraddle.height) ∧
    |(AnonymizationElementFactory.create vpStraddle rSample).vrect.w *
        (AnonymizationElementFactory.create vpStraddle rSample).vrect.h| =
      vpStraddle.scale ^ 2 *
        (|rSample.x1 - rSample.x0| * |rSample.y1 - rSample.y0|) :=
  ⟨by norm_num [Viewport.convertToViewportPoint, Viewport.coeffs, vpStraddle,
      rSample],
    c6_amended_area vpStraddle rSample
      (by norm_num [Viewport.convertToViewportPoint, Viewport.coeffs,
        vpStraddle, rSample])⟩

/-! ## Reachability: the gesture machine never paints from a broken state

Whenever `painting` is set in a state reachable from `initGesture`, the
`createRectangle` closure (the anchor) is in place — so the hypotheses of
the `mouseup` theorem hold at every reachable painting state and the
`TypeError` branches of `handleEvent` are dead code. -/

/-- A single event preserves "painting implies an anchor exists". -/
theorem handleEvent_painting_anchor (vp : Viewport) (s s' : GestureState)
    (e : MouseEvent) (ops : List PaintOp)
    (hInv : s.painting = true → s.anchor.isSome)
    (h : handleEvent vp s e = .ok (s', ops)) :
    s'.painting = true → s'.anchor.isSome := by
  cases e with
  | mousedown p =>
    simp only [handleEvent] at h
    split at h
    · simp only [Except.ok.injEq, Prod.mk.injEq] at h
      obtain ⟨h1, h2⟩ := h
      subst h1
      exact hInv
    · simp only [Except.ok.injEq, Prod.mk.injEq] at h
      obtain ⟨h1, h2⟩ := h
      subst h1
      intro hp
      simp
  | mouseup p =>
    simp only [handleEvent] at h
    split at h
    · split at h
      · exact absurd h (by simp)
      · simp only [Except.ok.injEq, Prod.mk.injEq] at h
        obtain ⟨h1, h2⟩ := h
        subst h1
        intro hp
        simp at hp
    · simp only [Except.ok.injEq, Prod.mk.injEq] at h
      obtain ⟨h1, h2⟩ := h
      subst h1
      exact hInv
  | mousemove p =>
    cases hprev : s.preview with
    | none =>
      simp only [handleEvent, hprev] at h
      split at h
      · split at h
        · exact absurd h (by simp)
        · simp only [Except.ok.injEq, Prod.mk.injEq] at h
          obtain ⟨h1, h2⟩ := h
          subst h1
          intro hp
          exact hInv hp
      · simp only [Except.ok.injEq, Prod.mk.injEq] at h
        obtain ⟨h1, h2⟩ := h
        subst h1
        exact hInv
    | some el =>
      simp only [handleEvent, hprev] at h
      split at h
      · split at h
        · exact absurd h (by simp)
        · simp only [Except.ok.injEq, Prod.mk.injEq] at h
          obtain ⟨h1, h2⟩ := h
          subst h1
          intro hp
          exact hInv hp
      · simp only [Except.ok.injEq, Prod.mk.injEq] at h
        obtain ⟨h1, h2⟩ := h
        subst h1
        exact hInv

/-- Running any event sequence preserves "painting implies an anchor". -/
theorem runEvents_painting_anchor (vp : Viewport) (evs : List MouseEvent)
    (s s' : GestureState) (ops : List PaintOp)
    (hInv : s.painting = true → s.anchor.isSome)
    (h : runEvents vp s evs = .ok (s', ops)) :
    s'.painting = true → s'.anchor.isSome := by
  induction evs generalizing s ops with
  | nil =>
    simp only [runEvents, Except.ok.injEq, Prod.mk.injEq] at h
    obtain ⟨h1, h2⟩ := h
    subst h1
    exact hInv
  | cons e rest ih =>
    simp only [runEvents] at h
    cases h1 : handleEvent vp s e with
    | error err => rw [h1] at h; simp at h
    | ok x =>
      obtain ⟨s1, ops1⟩ := x
      rw [h1] at h
      dsimp only at h
      cases h2 : runEvents vp s1 rest with
      | error err =>
        rw [h2] at h
        simp at h
      | ok y =>
        obtain ⟨s2, ops2⟩ := y
        rw [h2] at h
        simp only [Except.ok.injEq, Prod.mk.injEq] at h
        obtain ⟨hs, _⟩ := h
        subst hs
        exact ih s1 ops2
          (handleEvent_painting_anchor vp s s1 e ops1 hInv h1) h2

/-- In every state reachable from `initGesture`, a set `painting` flag
comes with an anchor — the hypotheses of the `mouseup` theorem hold at
every reachable painting state, and the `TypeError` branches of
`handleEvent` are unreachable. -/
theorem reachable_painting_anchor (vp : Viewport)
    (rectangles : List (Option Rectangle)) (evs : List MouseEvent)
    (s : GestureState) (ops : List PaintOp)
    (h : runEvents vp (initGesture rectangles) evs = .ok (s, ops)) :
    s.painting = true → s.anchor.isSome :=
  runEvents_painting_anchor vp evs (initGesture rectangles) s ops
    (by intro hp; simp [initGesture] at hp) h
